import Mathlib

/-!
A shallow embedding of the Ledger Integrity & Access Engine of the e-ledger
repository: the hash-linked trace attached to each batch, the status
transitions, the visibility (secrecy) filter and the point-of-sale check.

The embedding follows `src/services/ledgerService.ts`, which contains two
variants of the service separated by a document marker (the first variant
with explicit `previousHash` chaining, the second with random transaction
hashes), and `src/backend/server.js`.  Definitions taken from the second
variant carry a `2` suffix.  Nondeterministic inputs of the JavaScript code
(`Date.now()`, `new Date().toISOString()`, `Math.random()`) are passed in as
explicit parameters; the external SHA-256 primitive is modelled as an
injective deterministic tagging function, which is all the claims use of it.
`localStorage` state is threaded explicitly as a `Ledger` value.
-/

namespace ELedger

/-- `UserRole` from `src/types.ts`. -/
inductive UserRole
| MANUFACTURER | DISTRIBUTOR | RETAILER | REGULATOR | AUDITOR
deriving DecidableEq, Repr

/-- `BatchStatus` from `src/types.ts` (string values elided; `CREATED` is
serialized as `DISTILLED`, `QUARANTINED` as `SEIZED`). -/
inductive BatchStatus
| CREATED | IN_TRANSIT | RECEIVED | SOLD | RECALLED | DESTROYED | RETURNED
| QUARANTINED | BONDED | DUTY_PAID | CONSUMED
deriving DecidableEq, Repr

/-- The `type` union of `TraceEvent` from `src/types.ts`. -/
inductive EventType
| MANUFACTURE | DISPATCH | RECEIVE | SALE | AGGREGATION | TRANSFORMATION
| RETURN | RETURN_RECEIPT | SHIPMENT_RECEIPT | DUTY_PAYMENT | PERMIT_ISSUE
| RECALL | POS_SCAN
deriving DecidableEq, Repr

/-- `ReturnReason` from `src/types.ts`. -/
inductive ReturnReason
| DAMAGED | EXPIRED | UNSOLD | RECALLED | INCORRECT_ITEM
deriving DecidableEq, Repr

/-- `TraceEvent` from `src/types.ts`.  The free-form `metadata` record is
opaque to the core and modelled by its serialized form.  In second-variant
write paths the JavaScript object literals omit `previousHash`; those
constructors set it to the empty string here. -/
structure TraceEvent where
  eventID : String
  type : EventType
  timestamp : String
  actorGLN : String
  actorName : String
  location : String
  metadata : String
  txHash : String
  previousHash : String
deriving DecidableEq, Repr

/-- `Batch` from `src/types.ts`.  Descriptive attributes that no operation
inspects (`alcoholContent`, `category`) are carried as opaque strings. -/
structure Batch where
  batchID : String
  blockchainId : String
  genesisHash : String
  gtin : String
  lotNumber : String
  expiryDate : String
  quantity : Nat
  unit : String
  productName : String
  manufacturerGLN : String
  currentOwnerGLN : String
  intendedRecipientGLN : Option String
  status : BatchStatus
  integrityHash : Option String
  alcoholContent : Option String
  category : Option String
  dutyPaid : Bool
  trace : List TraceEvent
deriving DecidableEq, Repr

/-- `User` from `src/types.ts`. -/
structure User where
  id : String
  name : String
  role : UserRole
  gln : String
  orgName : String
deriving DecidableEq, Repr

/-- The ledger store (`localStorage[LEDGER_STORAGE_KEY]`): a list of batches,
newest first. -/
abbrev Ledger := List Batch

/-- Model of the external `crypto.subtle.digest('SHA-256', _)` primitive of
`ledgerService.ts` (hex-encoded).  The claims depend only on it being a
deterministic function of its input, which any Lean function is; it is
modelled as an injective tag. -/
def sha256 (message : String) : String := "sha256[" ++ message ++ "]"

/-- The string value of an `EventType` (the `type` field of the JSON object). -/
def EventType.toName : EventType → String
| .MANUFACTURE => "MANUFACTURE"
| .DISPATCH => "DISPATCH"
| .RECEIVE => "RECEIVE"
| .SALE => "SALE"
| .AGGREGATION => "AGGREGATION"
| .TRANSFORMATION => "TRANSFORMATION"
| .RETURN => "RETURN"
| .RETURN_RECEIPT => "RETURN_RECEIPT"
| .SHIPMENT_RECEIPT => "SHIPMENT_RECEIPT"
| .DUTY_PAYMENT => "DUTY_PAYMENT"
| .PERMIT_ISSUE => "PERMIT_ISSUE"
| .RECALL => "RECALL"
| .POS_SCAN => "POS_SCAN"

/-- Model of `JSON.stringify(newEvent)` as used in `updateBatch` (first
variant): a canonical serialization of the event's fields in object order. -/
def serializeEvent (e : TraceEvent) : String :=
  "eventID:" ++ e.eventID ++ ";type:" ++ e.type.toName ++
  ";timestamp:" ++ e.timestamp ++ ";actorGLN:" ++ e.actorGLN ++
  ";actorName:" ++ e.actorName ++ ";location:" ++ e.location ++
  ";metadata:" ++ e.metadata ++ ";txHash:" ++ e.txHash ++
  ";previousHash:" ++ e.previousHash

/-- The sentinel `previousHash` of the genesis event
(`ledgerService.ts` line 142). -/
def genesisPreviousHash : String := "00000000000000000000000000000000"

/-- `LedgerService.getBatchByID` (local branch): `ledgerState.find(b =>
b.batchID === batchID)`. -/
def getBatchByID (ledger : Ledger) (batchID : String) : Option Batch :=
  ledger.find? (fun b => b.batchID == batchID)

/-- The local-store commit of `updateBatch`: `findIndex` on `batchID`, then
replace that single index (`ledgerState[index] = updatedBatch`); no-op when
the batch is absent.  Written as replace-the-first-match, which is what
`findIndex` followed by an index assignment does. -/
def saveUpdatedBatch : Ledger → Batch → Ledger
  | [], _ => []
  | a :: rest, updated =>
      if a.batchID == updated.batchID then updated :: rest
      else a :: saveUpdatedBatch rest updated

/-- The visibility predicate of `LedgerService.getBatches` (both variants)
and of the secrecy filter of `GET /api/batches` in `server.js`. -/
def visibleTo (gln : String) (b : Batch) : Bool :=
  b.currentOwnerGLN == gln ||
  b.manufacturerGLN == gln ||
  b.intendedRecipientGLN == some gln ||
  b.trace.any (fun t => t.actorGLN == gln)

/-- `LedgerService.getBatches` (local branch, first variant; the second
variant is identical): regulators and auditors see the whole ledger, anyone
else only the batches they are a party to. -/
def getBatches (user : User) (ledger : Ledger) : Ledger :=
  if user.role == UserRole.REGULATOR || user.role == UserRole.AUDITOR then
    ledger
  else
    ledger.filter (visibleTo user.gln)

/-- The secrecy filter of `GET /api/batches` in `server.js` (lines 190-204),
over the parsed rows. -/
def serverListBatches (db : Ledger) (gln : String) (role : UserRole) : Ledger :=
  if role != UserRole.REGULATOR && role != UserRole.AUDITOR then
    db.filter (visibleTo gln)
  else
    db

/-- The synthetic principal `verifyByHash` queries with:
`{ role: UserRole.REGULATOR, gln: 'admin', name: '', id: '', orgName: '' }`. -/
def adminPrincipal : User :=
  { id := "", name := "", role := UserRole.REGULATOR, gln := "admin", orgName := "" }

/-- `LedgerService.verifyByHash` (first variant): scan all batches fetched as
the synthetic regulator for a matching `integrityHash` or `blockchainId`. -/
def verifyByHash (ledger : Ledger) (hash : String) : Option Batch :=
  (getBatches adminPrincipal ledger).find?
    (fun b => b.integrityHash == some hash || b.blockchainId == hash)

/-- `LedgerService.verifyByHash` (second variant): same scan, matching only
`integrityHash`. -/
def verifyByHash2 (ledger : Ledger) (hash : String) : Option Batch :=
  (getBatches adminPrincipal ledger).find?
    (fun b => b.integrityHash == some hash)

/-- The `Partial<Batch>` creation payload of `createBatch`; fields read with
`!` are required, fields read with `||` defaults are optional. -/
structure BatchInput where
  gtin : String
  lotNumber : String
  expiryDate : String
  quantity : Option Nat
  unit : Option String
  productName : Option String
  alcoholContent : Option String
  category : Option String
deriving DecidableEq, Repr

/-- `LedgerService.createBatch` (first variant, local branch).  `timestamp`
stands for `new Date().toISOString()` and `nowMs` for `Date.now()`.  Returns
the new batch (the source prepends it to the store and returns its ID). -/
def createBatch (batchData : BatchInput) (actor : User) (timestamp : String)
    (nowMs : Nat) : Batch :=
  let identityString :=
    batchData.gtin ++ "-" ++ batchData.lotNumber ++ "-" ++ actor.gln ++ "-" ++ timestamp
  let genesisHash := sha256 identityString
  let batchID := "BATCH-" ++ toString nowMs
  let blockchainId := "BLK-" ++ genesisHash.take 12
  let initialTraceHash := sha256 ("GENESIS:" ++ genesisHash)
  { batchID := batchID
    blockchainId := blockchainId
    genesisHash := genesisHash
    gtin := batchData.gtin
    lotNumber := batchData.lotNumber
    expiryDate := batchData.expiryDate
    quantity := batchData.quantity.getD 0
    unit := batchData.unit.getD "units"
    productName := batchData.productName.getD "Unknown Product"
    manufacturerGLN := actor.gln
    currentOwnerGLN := actor.gln
    status := BatchStatus.CREATED
    integrityHash := some genesisHash
    alcoholContent := batchData.alcoholContent
    category := batchData.category
    dutyPaid := false
    intendedRecipientGLN := none
    trace := [
      { eventID := "evt-" ++ toString nowMs
        type := EventType.MANUFACTURE
        timestamp := timestamp
        actorGLN := actor.gln
        actorName := actor.orgName
        location := "Manufacturing Plant"
        txHash := initialTraceHash
        previousHash := genesisPreviousHash
        metadata := "note:Blockchain Genesis Block;integrityHash:" ++ genesisHash }
    ] }

/-- The hash-linking step of `updateBatch` (first variant, lines 166-169):
set the draft's `previousHash` to the last event's `txHash`, then set its
`txHash` to `sha256(JSON.stringify(newEvent) + lastEvent.txHash)` — at that
point the draft's own `txHash` field still holds the caller-supplied value
(the callers all pass the empty string). -/
def chainEvent (lastTxHash : String) (draft : TraceEvent) : TraceEvent :=
  let linked := { draft with previousHash := lastTxHash }
  { linked with txHash := sha256 (serializeEvent linked ++ lastTxHash) }

/-- The batch-level effect of `updateBatch` (first variant): append the
chained event.  `none` models the TypeError the JavaScript raises when
`batch.trace` is empty (`batch.trace[batch.trace.length - 1]` is
`undefined`). -/
def updateBatchPure (batch : Batch) (newEvent : TraceEvent) : Option Batch :=
  match batch.trace.getLast? with
  | none => none
  | some lastEvent =>
      some { batch with trace := batch.trace ++ [chainEvent lastEvent.txHash newEvent] }

/-- `LedgerService.updateBatch` (first variant, local branch): chain the new
event onto the batch, commit the updated batch to the store and return it. -/
def updateBatch (ledger : Ledger) (batch : Batch) (newEvent : TraceEvent) :
    Option (Ledger × Batch) :=
  match updateBatchPure batch newEvent with
  | none => none
  | some updated => some (saveUpdatedBatch ledger updated, updated)

/-- The non-trace fields a caller of `updateBatch` may have rewritten on the
batch it passes in (`{ ...batch, status: .., currentOwnerGLN: ..,
intendedRecipientGLN: .. }`). -/
structure BatchMut where
  status : BatchStatus
  currentOwnerGLN : String
  intendedRecipientGLN : Option String
deriving DecidableEq, Repr

/-- Apply a caller-side field rewrite before `updateBatch`. -/
def applyMut (b : Batch) (m : BatchMut) : Batch :=
  { b with status := m.status, currentOwnerGLN := m.currentOwnerGLN,
           intendedRecipientGLN := m.intendedRecipientGLN }

/-- Any sequence of first-variant `updateBatch` appends after creation: each
step rewrites the non-trace fields as its caller does and appends one drafted
event through the hash-linking helper. -/
def appendEvents : Batch → List (BatchMut × TraceEvent) → Option Batch
  | b, [] => some b
  | b, (m, draft) :: rest =>
      match updateBatchPure (applyMut b m) draft with
      | none => none
      | some b2 => appendEvents b2 rest

/-- The result type of `checkPOSStatus`. -/
inductive POSStatus
| VALID | INVALID | DUPLICATE
deriving DecidableEq, Repr

/-- `LedgerService.checkPOSStatus` (first variant, local fallback branch,
lines 214-220).  The scanner GLN is accepted but not consulted locally, as in
the source. -/
def checkPOSStatus (ledger : Ledger) (batchID : String) (gln : String) :
    POSStatus × String :=
  match getBatchByID ledger batchID with
  | none => (POSStatus.INVALID, "Not found")
  | some batch =>
      if batch.status == BatchStatus.SOLD then
        (POSStatus.DUPLICATE, "Anti-Counterfeit Alert: Already Sold")
      else if batch.status == BatchStatus.QUARANTINED ||
              batch.status == BatchStatus.RECALLED then
        (POSStatus.INVALID, "Compliance Block")
      else
        (POSStatus.VALID, "Verified")

/-- The HTTP outcome of `POST /api/pos/verify` in `server.js`
(lines 284-306). -/
inductive PosVerifyResponse
| notFound404
| duplicate409
| illegal403 (status : BatchStatus)
| valid200
deriving DecidableEq, Repr

/-- `POST /api/pos/verify` in `server.js`: 404 when the row is absent, 409
when its status is `SOLD`, 403 when `SEIZED` (the stored value of
`QUARANTINED`) or `RECALLED`, 200 otherwise. -/
def posVerifyServer (db : Ledger) (batchID : String) : PosVerifyResponse :=
  match db.find? (fun b => b.batchID == batchID) with
  | none => PosVerifyResponse.notFound404
  | some row =>
      if row.status == BatchStatus.SOLD then
        PosVerifyResponse.duplicate409
      else if row.status == BatchStatus.QUARANTINED ||
              row.status == BatchStatus.RECALLED then
        PosVerifyResponse.illegal403 row.status
      else
        PosVerifyResponse.valid200

/-- The `ReturnReason` string values. -/
def ReturnReason.toName : ReturnReason → String
| .DAMAGED => "DAMAGED"
| .EXPIRED => "EXPIRED"
| .UNSOLD => "UNSOLD"
| .RECALLED => "RECALLED"
| .INCORRECT_ITEM => "INCORRECT_ITEM"

/-- The `UserRole` string values. -/
def UserRole.toName : UserRole → String
| .MANUFACTURER => "MANUFACTURER"
| .DISTRIBUTOR => "DISTRIBUTOR"
| .RETAILER => "RETAILER"
| .REGULATOR => "REGULATOR"
| .AUDITOR => "AUDITOR"

/-- The `SALE` event draft of first-variant `sellBatch`. -/
def saleDraft (actor : User) (timestamp : String) (nowMs : Nat) : TraceEvent :=
  { eventID := "evt-" ++ toString nowMs
    type := EventType.SALE
    timestamp := timestamp
    actorGLN := actor.gln
    actorName := actor.orgName
    location := "Point of Sale"
    txHash := ""
    previousHash := ""
    metadata := "type:Consumer Sale" }

/-- `LedgerService.sellBatch` (first variant, lines 279-301): run the POS
check first and throw its message unless it is `VALID`; only then append the
`SALE` event with the status rewritten to `SOLD`. -/
def sellBatch (ledger : Ledger) (batchID : String) (actor : User)
    (timestamp : String) (nowMs : Nat) : Except String (Ledger × Batch) :=
  let check := checkPOSStatus ledger batchID actor.gln
  if check.1 != POSStatus.VALID then
    Except.error check.2
  else
    match getBatchByID ledger batchID with
    | none => Except.error "Batch not found"
    | some batch =>
        match updateBatch ledger { batch with status := BatchStatus.SOLD }
            (saleDraft actor timestamp nowMs) with
        | none => Except.error "TypeError: trace is empty"
        | some res => Except.ok res

/-- The `RECEIVE` event draft of first-variant `receiveBatch`. -/
def receiveDraft (actor : User) (sourceGLN : String) (timestamp : String)
    (nowMs : Nat) : TraceEvent :=
  { eventID := "evt-" ++ toString nowMs
    type := EventType.RECEIVE
    timestamp := timestamp
    actorGLN := actor.gln
    actorName := actor.orgName
    location := "Inbound Dock"
    txHash := ""
    previousHash := ""
    metadata := "method:QR Scan;sourceGLN:" ++ sourceGLN }

/-- `LedgerService.receiveBatch` (first variant, lines 258-277): no recipient
or status guard; rewrite owner/recipient/status and append a `RECEIVE`
event.  The status written is always `RECEIVED`. -/
def receiveBatch (ledger : Ledger) (batchID : String) (actor : User)
    (timestamp : String) (nowMs : Nat) : Except String (Ledger × Batch) :=
  match getBatchByID ledger batchID with
  | none => Except.error "Batch not found"
  | some batch =>
      let updated := { batch with currentOwnerGLN := actor.gln,
                                  intendedRecipientGLN := none,
                                  status := BatchStatus.RECEIVED }
      match updateBatch ledger updated
          (receiveDraft actor batch.currentOwnerGLN timestamp nowMs) with
      | none => Except.error "TypeError: trace is empty"
      | some res => Except.ok res

/-- The `DISPATCH` event draft of first-variant `transferBatches`. -/
def dispatchDraft (actor : User) (toGLN toName : String) (fromPlace : Option String)
    (timestamp : String) (nowMs : Nat) : TraceEvent :=
  { eventID := "evt-" ++ toString nowMs
    type := EventType.DISPATCH
    timestamp := timestamp
    actorGLN := actor.gln
    actorName := actor.orgName
    location := fromPlace.getD "Distribution Center"
    txHash := ""
    previousHash := ""
    metadata := "recipient:" ++ toName ++ ";recipientGLN:" ++ toGLN }

/-- The loop body list of `LedgerService.transferBatches` (first variant,
lines 235-254): for each requested ID, look the batch up in the list fetched
once through the caller's visibility filter, skip silently when it is absent
or the caller is not `currentOwnerGLN`, otherwise append a `DISPATCH` event
with the status rewritten to `IN_TRANSIT` and the recipient set. -/
def transferLoop (currentBatches : Ledger) (toGLN toName : String) (actor : User)
    (fromPlace : Option String) (timestamp : String) (nowMs : Nat) :
    List String → Ledger → Except String Ledger
  | [], ledger => Except.ok ledger
  | id :: rest, ledger =>
      match currentBatches.find? (fun b => b.batchID == id) with
      | none => transferLoop currentBatches toGLN toName actor fromPlace timestamp nowMs rest ledger
      | some batch =>
          if batch.currentOwnerGLN != actor.gln then
            transferLoop currentBatches toGLN toName actor fromPlace timestamp nowMs rest ledger
          else
            let updated := { batch with status := BatchStatus.IN_TRANSIT,
                                        intendedRecipientGLN := some toGLN }
            match updateBatch ledger updated
                (dispatchDraft actor toGLN toName fromPlace timestamp nowMs) with
            | none => Except.error "TypeError: trace is empty"
            | some (ledger2, _) =>
                transferLoop currentBatches toGLN toName actor fromPlace timestamp nowMs rest ledger2

/-- `LedgerService.transferBatches` (first variant): fetch the caller-visible
batches once, then run the dispatch loop; always resolves `true`, so the
result here is just the final store. -/
def transferBatches (ledger : Ledger) (batchIDs : List String) (toGLN toName : String)
    (actor : User) (fromPlace : Option String) (timestamp : String) (nowMs : Nat) :
    Except String Ledger :=
  transferLoop (getBatches actor ledger) toGLN toName actor fromPlace timestamp nowMs
    batchIDs ledger

/-- The `RECALL` event draft of first-variant `recallBatch`. -/
def recallDraft (reason : String) (actor : User) (timestamp : String)
    (nowMs : Nat) : TraceEvent :=
  { eventID := "evt-" ++ toString nowMs
    type := EventType.RECALL
    timestamp := timestamp
    actorGLN := actor.gln
    actorName := actor.orgName
    location := "Compliance Dept"
    txHash := ""
    previousHash := ""
    metadata := "reason:" ++ reason ++ ";initiatorRole:" ++ actor.role.toName }

/-- `LedgerService.recallBatch` (first variant, lines 303-323): no status or
caller-role guard; append a `RECALL` event with the status rewritten to
`RECALLED`. -/
def recallBatch (ledger : Ledger) (batchID : String) (reason : String) (actor : User)
    (timestamp : String) (nowMs : Nat) : Except String Ledger :=
  match getBatchByID ledger batchID with
  | none => Except.error "Batch not found"
  | some batch =>
      match updateBatch ledger { batch with status := BatchStatus.RECALLED }
          (recallDraft reason actor timestamp nowMs) with
      | none => Except.error "TypeError: trace is empty"
      | some (ledger2, _) => Except.ok ledger2

/-- The `RETURN` event draft of first-variant `returnBatch` (lines 325-341). -/
def returnDraft (reason : ReturnReason) (refundValue : Option Nat) (actor : User)
    (timestamp : String) (nowMs : Nat) : TraceEvent :=
  { eventID := "evt-" ++ toString nowMs
    type := EventType.RETURN
    timestamp := timestamp
    actorGLN := actor.gln
    actorName := actor.orgName
    location := "Returns"
    txHash := ""
    previousHash := ""
    metadata := "reason:" ++ reason.toName ++ ";refundAmount:" ++
      (refundValue.map toString).getD "undefined" }

/-- `LedgerService.returnBatch` (first variant): appends the `RETURN` draft
with the status rewritten to `IN_TRANSIT` and the recipient set to the
return target; note the absence of any ownership or status guard. -/
def returnBatch (ledger : Ledger) (batchID toGLN : String) (reason : ReturnReason)
    (actor : User) (refundValue : Option Nat) (timestamp : String) (nowMs : Nat) :
    Except String Ledger :=
  match getBatchByID ledger batchID with
  | none => Except.error "Batch not found"
  | some batch =>
      let updated := { batch with status := BatchStatus.IN_TRANSIT,
                                  intendedRecipientGLN := some toGLN }
      match updateBatch ledger updated
          (returnDraft reason refundValue actor timestamp nowMs) with
      | none => Except.error "TypeError: trace is empty"
      | some (ledger2, _) => Except.ok ledger2

/-- `LedgerService.updateBatch` (second variant, lines 542-563): the batch is
committed to the store as given, with no hash linking. -/
def updateBatch2 (ledger : Ledger) (batch : Batch) : Ledger :=
  saveUpdatedBatch ledger batch

/-- Second-variant loop body of `transferBatches` (lines 593-624): the
`txHash` of each new event is `0x` followed by a fresh `Math.random()`
fraction, supplied here per loop index by `randTx`; the event ID carries a
second random draw `randEvt`. -/
def transferLoop2 (currentBatches : Ledger) (toGLN toName : String) (actor : User)
    (fromPlace : Option String) (timestamp : String) (nowMs : Nat)
    (randTx : Nat → String) (randEvt : Nat → Nat) :
    List String → Nat → Ledger → Ledger
  | [], _, ledger => ledger
  | id :: rest, i, ledger =>
      match currentBatches.find? (fun b => b.batchID == id) with
      | none => transferLoop2 currentBatches toGLN toName actor fromPlace timestamp nowMs
          randTx randEvt rest (i + 1) ledger
      | some batch =>
          if batch.currentOwnerGLN != actor.gln then
            transferLoop2 currentBatches toGLN toName actor fromPlace timestamp nowMs
              randTx randEvt rest (i + 1) ledger
          else
            let newEvent : TraceEvent :=
              { eventID := "evt-" ++ toString nowMs ++ "-" ++ toString (randEvt i)
                type := EventType.DISPATCH
                timestamp := timestamp
                actorGLN := actor.gln
                actorName := actor.orgName
                location := fromPlace.getD "Distribution Center"
                txHash := "0x" ++ randTx i
                previousHash := ""
                metadata := "recipient:" ++ toName ++ ";recipientGLN:" ++ toGLN ++
                  ";bulkTransferId:TX-" ++ toString nowMs }
            let updatedBatch := { batch with status := BatchStatus.IN_TRANSIT,
                                             intendedRecipientGLN := some toGLN,
                                             trace := batch.trace ++ [newEvent] }
            transferLoop2 currentBatches toGLN toName actor fromPlace timestamp nowMs
              randTx randEvt rest (i + 1) (updateBatch2 ledger updatedBatch)

/-- `LedgerService.transferBatches` (second variant): fetch the caller-visible
batches once, then run the dispatch loop with per-iteration random hashes. -/
def transferBatches2 (ledger : Ledger) (batchIDs : List String) (toGLN toName : String)
    (actor : User) (fromPlace : Option String) (timestamp : String) (nowMs : Nat)
    (randTx : Nat → String) (randEvt : Nat → Nat) : Ledger :=
  transferLoop2 (getBatches actor ledger) toGLN toName actor fromPlace timestamp nowMs
    randTx randEvt batchIDs 0 ledger

/-- `LedgerService.returnBatch` (second variant, lines 631-665): throws
`"Not owner"` when the caller is not `currentOwnerGLN`; otherwise appends a
`RETURN` event (random `txHash`) with status `IN_TRANSIT` and the recipient
set. -/
def returnBatch2 (ledger : Ledger) (batchID toGLN : String) (reason : ReturnReason)
    (actor : User) (refundValue : Option Nat) (timestamp : String) (nowMs : Nat)
    (randTx : String) : Except String Ledger :=
  match getBatchByID ledger batchID with
  | none => Except.error "Batch not found"
  | some batch =>
      if batch.currentOwnerGLN != actor.gln then
        Except.error "Not owner"
      else
        let returnEvent : TraceEvent :=
          { eventID := "evt-" ++ toString nowMs
            type := EventType.RETURN
            timestamp := timestamp
            actorGLN := actor.gln
            actorName := actor.orgName
            location := "Returns Dept"
            txHash := "0x" ++ randTx
            previousHash := ""
            metadata := "reason:" ++ reason.toName ++ ";returnTo:" ++ toGLN ++
              ((refundValue.map (fun v => ";refundAmount:" ++ toString v ++
                ";currency:INR;creditNoteId:CN-" ++ toString nowMs)).getD "") }
        let updatedBatch := { batch with status := BatchStatus.IN_TRANSIT,
                                         intendedRecipientGLN := some toGLN,
                                         trace := batch.trace ++ [returnEvent] }
        Except.ok (updateBatch2 ledger updatedBatch)

/-- `LedgerService.receiveBatch` (second variant, lines 667-702): throws
`"Wrong recipient"` when a recipient is set and differs from the caller;
reads the last trace event (TypeError when the trace is empty), and closes
it as a `RETURN_RECEIPT` with status `QUARANTINED` when that event is a
`RETURN`, and as a `SHIPMENT_RECEIPT` with status `RECEIVED` otherwise. -/
def receiveBatch2 (ledger : Ledger) (batchID : String) (actor : User)
    (timestamp : String) (nowMs : Nat) (randTx : String) :
    Except String (Ledger × Batch) :=
  match getBatchByID ledger batchID with
  | none => Except.error "Batch not found"
  | some batch =>
      if (batch.intendedRecipientGLN.map (fun r => r != actor.gln)).getD false then
        Except.error "Wrong recipient"
      else
        match batch.trace.getLast? with
        | none => Except.error "TypeError: trace is empty"
        | some lastEvent =>
            let isReturnReceipt := lastEvent.type == EventType.RETURN
            let eventType := if isReturnReceipt then EventType.RETURN_RECEIPT
                             else EventType.SHIPMENT_RECEIPT
            let newStatus := if isReturnReceipt then BatchStatus.QUARANTINED
                             else BatchStatus.RECEIVED
            let receiveEvent : TraceEvent :=
              { eventID := "evt-" ++ toString nowMs
                type := eventType
                timestamp := timestamp
                actorGLN := actor.gln
                actorName := actor.orgName
                location := "Inbound Dock"
                txHash := "0x" ++ randTx
                previousHash := ""
                metadata := "method:QR Scan;sourceGLN:" ++ batch.currentOwnerGLN }
            let updatedBatch := { batch with currentOwnerGLN := actor.gln,
                                             intendedRecipientGLN := none,
                                             status := newStatus,
                                             trace := batch.trace ++ [receiveEvent] }
            Except.ok (updateBatch2 ledger updatedBatch, updatedBatch)

/-- The payment argument of second-variant `sellBatch`. -/
structure PaymentDetails where
  status : String
  method : String
  amount : Nat
deriving DecidableEq, Repr

/-- `LedgerService.sellBatch` (second variant, lines 704-741): fetches the
batch and unconditionally appends a `SALE` event (random `txHash`) with the
status rewritten to `SOLD` — no point-of-sale check is consulted. -/
def sellBatch2 (ledger : Ledger) (batchID : String) (actor : User)
    (payment : Option PaymentDetails) (timestamp : String) (nowMs : Nat)
    (randTx : String) : Except String (Ledger × Batch) :=
  match getBatchByID ledger batchID with
  | none => Except.error "Batch not found"
  | some batch =>
      let saleEvent : TraceEvent :=
        { eventID := "evt-" ++ toString nowMs
          type := EventType.SALE
          timestamp := timestamp
          actorGLN := actor.gln
          actorName := actor.orgName
          location := "Point of Sale"
          txHash := "0x" ++ randTx
          previousHash := ""
          metadata := "type:Retail Dispense" ++
            ((payment.map (fun p => ";paymentStatus:" ++ p.status ++
              ";amount:" ++ toString p.amount ++ ";receiptId:RCPT-" ++ toString nowMs ++
              ";method:" ++ p.method)).getD "") }
      let updatedBatch := { batch with status := BatchStatus.SOLD,
                                       trace := batch.trace ++ [saleEvent] }
      Except.ok (updateBatch2 ledger updatedBatch, updatedBatch)

/-- The content fields of a trace event in the sense of the deterministic-
digest requirement: kind, timestamp, actor, location, metadata and
`previousHash` — everything except the generated `eventID` and the `txHash`
itself. -/
def eventContent (e : TraceEvent) :
    EventType × String × String × String × String × String × String :=
  (e.type, e.timestamp, e.actorGLN, e.actorName, e.location, e.metadata, e.previousHash)

/-! ## Helper lemmas -/

/-- `find?` locates a designated member when it is the only one satisfying
the predicate. -/
theorem find?_eq_some_of_mem_unique {α : Type} (p : α → Bool) (l : List α) (b : α)
    (hb : b ∈ l) (hp : p b = true) (huniq : ∀ x ∈ l, p x = true → x = b) :
    l.find? p = some b := by
  induction l with
  | nil => cases hb
  | cons a t ih =>
      by_cases hpa : p a = true
      · have ha : a = b := huniq a (List.mem_cons_self a t) hpa
        rw [List.find?_cons_of_pos _ hpa, ha]
      · rw [List.find?_cons_of_neg _ hpa]
        have hbt : b ∈ t := by
          cases hb with
          | head => exact absurd hp hpa
          | tail _ h => exact h
        exact ih hbt (fun x hx hpx => huniq x (List.mem_cons_of_mem a hx) hpx)

/-- After committing `updated` over the slot found for `id`, the lookup for
`id` yields `updated` (when `updated` keeps the found batch's ID). -/
theorem find?_saveUpdatedBatch (ledger : Ledger) (id : String) (b updated : Batch)
    (hfind : ledger.find? (fun x => x.batchID == id) = some b)
    (hid : updated.batchID = b.batchID) :
    (saveUpdatedBatch ledger updated).find? (fun x => x.batchID == id) = some updated := by
  induction ledger with
  | nil => simp [List.find?] at hfind
  | cons a t ih =>
      by_cases hpa : (a.batchID == id) = true
      · have hab : a = b := by simpa [List.find?_cons, hpa] using hfind
        have haid : a.batchID = id := by simpa using hpa
        have hu : updated.batchID = id := by rw [hid, ← hab, haid]
        simp [saveUpdatedBatch, haid, hu, List.find?_cons]
      · have hfind2 : t.find? (fun x => x.batchID == id) = some b := by
          simpa [List.find?_cons, hpa] using hfind
        have hbid : b.batchID = id := by simpa using List.find?_some hfind2
        have hau : ¬ (a.batchID == updated.batchID) = true := by
          rw [hid, hbid]
          simpa using hpa
        simpa [saveUpdatedBatch, hau, List.find?_cons, hpa] using ih hfind2

/-- What first-variant `updateBatch` computes on a batch with a last trace
event: the chained event is appended and the result committed to the store. -/
theorem updateBatch_spec (ledger : Ledger) (b0 : Batch) (draft le : TraceEvent)
    (hle : b0.trace.getLast? = some le) :
    updateBatch ledger b0 draft =
      some (saveUpdatedBatch ledger
              { b0 with trace := b0.trace ++ [chainEvent le.txHash draft] },
            { b0 with trace := b0.trace ++ [chainEvent le.txHash draft] }) := by
  simp [updateBatch, updateBatchPure, hle]

/-- Everything in a `getBatches` result is a stored batch. -/
theorem mem_of_mem_getBatches (actor : User) (ledger : Ledger) (x : Batch)
    (hx : x ∈ getBatches actor ledger) : x ∈ ledger := by
  unfold getBatches at hx
  by_cases hrole : (actor.role == UserRole.REGULATOR ||
      actor.role == UserRole.AUDITOR) = true
  · rw [if_pos hrole] at hx
    exact hx
  · rw [if_neg hrole] at hx
    exact (List.mem_filter.mp hx).1

/-- A `find?` hit that survives a `filter` is still the first hit inside the
filtered list. -/
theorem find?_filter_of_find? {α : Type} (l : List α) (p q : α → Bool) (b : α)
    (h : l.find? p = some b) (hq : q b = true) :
    (l.filter q).find? p = some b := by
  induction l with
  | nil => simp [List.find?] at h
  | cons a t ih =>
      by_cases hpa : p a = true
      · have hab : a = b := by simpa [List.find?_cons, hpa] using h
        subst hab
        simp [List.filter_cons, hq, List.find?_cons, hpa]
      · have ht : t.find? p = some b := by simpa [List.find?_cons, hpa] using h
        by_cases hqa : q a = true
        · simpa [List.filter_cons, hqa, List.find?_cons, hpa] using ih ht
        · simpa [List.filter_cons, hqa] using ih ht

/-- A batch that the first lookup finds and that is visible to the caller is
also the first lookup hit among the caller-visible batches. -/
theorem find?_getBatches (actor : User) (ledger : Ledger) (b : Batch)
    (h : ledger.find? (fun x => x.batchID == b.batchID) = some b)
    (hvis : visibleTo actor.gln b = true) :
    (getBatches actor ledger).find? (fun x => x.batchID == b.batchID) = some b := by
  unfold getBatches
  by_cases hrole : (actor.role == UserRole.REGULATOR || actor.role == UserRole.AUDITOR) = true
  · simpa [hrole] using h
  · simp only [Bool.not_eq_true] at hrole
    rw [hrole]
    simpa using find?_filter_of_find? ledger _ _ b h hvis

/-- The hash-chain linkage predicate over a trace, starting from a given
predecessor digest: each event's `previousHash` is the previous event's
`txHash`, the first one's is the start value. -/
def linkedFrom : String → List TraceEvent → Prop
  | _, [] => True
  | prev, e :: rest => e.previousHash = prev ∧ linkedFrom e.txHash rest

/-- Appending an event whose `previousHash` is the last event's `txHash`
preserves linkage. -/
theorem linkedFrom_concat (t : List TraceEvent) (prev : String) (le e : TraceEvent)
    (hl : linkedFrom prev t) (hlast : t.getLast? = some le)
    (he : e.previousHash = le.txHash) : linkedFrom prev (t ++ [e]) := by
  induction t generalizing prev with
  | nil => simp at hlast
  | cons a t2 ih =>
      cases t2 with
      | nil =>
          have hae : a = le := by simpa using hlast
          exact ⟨hl.1, by simpa [linkedFrom, hae] using he, trivial⟩
      | cons c t3 =>
          have hlast2 : (c :: t3).getLast? = some le := by
            simpa [List.getLast?_cons_cons] using hlast
          exact ⟨hl.1, ih a.txHash hl.2 hlast2⟩

/-- The first event of a linked trace points at the start value. -/
theorem linkedFrom_head (prev : String) (t : List TraceEvent) (e : TraceEvent)
    (hl : linkedFrom prev t) (hh : t.head? = some e) : e.previousHash = prev := by
  cases t with
  | nil => simp at hh
  | cons a t2 =>
      have hae : a = e := by simpa using hh
      exact hae ▸ hl.1

/-- Adjacent events of a linked trace are digest-linked. -/
theorem linkedFrom_adjacent (prev : String) (t : List TraceEvent)
    (hl : linkedFrom prev t) :
    ∀ i e1 e2, t[i]? = some e1 → t[i+1]? = some e2 →
      e2.previousHash = e1.txHash := by
  induction t generalizing prev with
  | nil => intro i e1 e2 h1 _; simp at h1
  | cons a t2 ih =>
      intro i e1 e2 h1 h2
      cases i with
      | zero =>
          have hae : a = e1 := by simpa using h1
          have h2t : t2[0]? = some e2 := by simpa using h2
          cases t2 with
          | nil => simp at h2t
          | cons c t3 =>
              have hce : c = e2 := by simpa using h2t
              rw [← hae, ← hce]
              exact hl.2.1
      | succ j =>
          have h1t : t2[j]? = some e1 := by simpa using h1
          have h2t : t2[j + 1]? = some e2 := by simpa using h2
          exact ih a.txHash hl.2 j e1 e2 h1t h2t

/-- `appendEvents` preserves non-emptiness and genesis-rooted linkage of the
trace. -/
theorem appendEvents_linked (steps : List (BatchMut × TraceEvent)) (b b' : Batch)
    (h : appendEvents b steps = some b')
    (hne : b.trace ≠ []) (hl : linkedFrom genesisPreviousHash b.trace) :
    b'.trace ≠ [] ∧ linkedFrom genesisPreviousHash b'.trace := by
  induction steps generalizing b with
  | nil =>
      have hb : b = b' := by simpa [appendEvents] using h
      exact hb ▸ ⟨hne, hl⟩
  | cons s rest ih =>
      obtain ⟨m, draft⟩ := s
      dsimp [appendEvents, updateBatchPure] at h
      cases hlast : (applyMut b m).trace.getLast? with
      | none =>
          rw [hlast] at h
          cases h
      | some le =>
          rw [hlast] at h
          dsimp at h
          have hlast2 : b.trace.getLast? = some le := hlast
          refine ih _ h (by simp) ?_
          show linkedFrom genesisPreviousHash
            ((applyMut b m).trace ++ [chainEvent le.txHash draft])
          have htr : (applyMut b m).trace = b.trace := rfl
          rw [htr]
          exact linkedFrom_concat b.trace genesisPreviousHash le _ hl hlast2 rfl

/-! ## Concrete fixtures (used by witnesses and counterexamples) -/

/-- A single-event trace entry fixture. -/
def mkEvent (ty : EventType) (gln : String) : TraceEvent :=
  { eventID := "evt-0", type := ty, timestamp := "2024-01-01T00:00:00Z",
    actorGLN := gln, actorName := "Org", location := "Plant",
    metadata := "", txHash := "h0", previousHash := genesisPreviousHash }

/-- A batch fixture. -/
def mkBatch (id : String) (st : BatchStatus) (owner : String)
    (tr : List TraceEvent) : Batch :=
  { batchID := id, blockchainId := "BLK-" ++ id, genesisHash := "gen-" ++ id,
    gtin := "08901234567890", lotNumber := "LOT-1",
    expiryDate := "2026-01-01", quantity := 12, unit := "units",
    productName := "Single Malt", manufacturerGLN := "0490001234567",
    currentOwnerGLN := owner, intendedRecipientGLN := none, status := st,
    integrityHash := some ("ih-" ++ id), alcoholContent := none,
    category := none, dutyPaid := false, trace := tr }

/-- A manufacturer principal fixture. -/
def userMfg : User :=
  { id := "user-mfg-01", name := "John Distiller", role := UserRole.MANUFACTURER,
    gln := "0490001234567", orgName := "Royal Spirits Distillery" }

/-- A distributor principal fixture. -/
def userDist : User :=
  { id := "user-dist-01", name := "Bob Warehouse", role := UserRole.DISTRIBUTOR,
    gln := "0490001234568", orgName := "Metro Distribution" }

/-- A retailer principal fixture. -/
def userRtl : User :=
  { id := "user-rtl-01", name := "Wine Shop", role := UserRole.RETAILER,
    gln := "0490001234569", orgName := "City Wine Shop" }

/-- A regulator principal fixture. -/
def userReg : User :=
  { id := "user-reg-01", name := "Excise Officer", role := UserRole.REGULATOR,
    gln := "0490009999999", orgName := "Excise Dept" }

/-! ## Claim theorems -/

/-- C1: for every stored unit whose status is `SOLD` and every scanner
identity, the point-of-sale check returns `DUPLICATE` — both in
`LedgerService.checkPOSStatus` (local branch) and in `POST /api/pos/verify`
(HTTP 409), for any scanner GLN. -/
theorem pos_check_sold_always_duplicate (ledger : Ledger) (b : Batch) (gln : String)
    (hb : b ∈ ledger) (hsold : b.status = BatchStatus.SOLD)
    (huniq : ∀ x ∈ ledger, x.batchID = b.batchID → x = b) :
    (checkPOSStatus ledger b.batchID gln).1 = POSStatus.DUPLICATE ∧
    posVerifyServer ledger b.batchID = PosVerifyResponse.duplicate409 := by
  have hfind : ledger.find? (fun x => x.batchID == b.batchID) = some b :=
    find?_eq_some_of_mem_unique _ _ _ hb (by simp)
      (fun x hx hpx => huniq x hx (by simpa using hpx))
  constructor
  · simp [checkPOSStatus, getBatchByID, hfind, hsold]
  · simp [posVerifyServer, hfind, hsold]

/-- Witness for C1 at a concrete sold batch and scanner. -/
theorem pos_check_sold_always_duplicate_witness :
    (checkPOSStatus [mkBatch "B1" BatchStatus.SOLD "0490001234569"
        [mkEvent EventType.SALE "0490001234569"]]
      (mkBatch "B1" BatchStatus.SOLD "0490001234569"
        [mkEvent EventType.SALE "0490001234569"]).batchID "any-scanner").1 =
      POSStatus.DUPLICATE ∧
    posVerifyServer [mkBatch "B1" BatchStatus.SOLD "0490001234569"
        [mkEvent EventType.SALE "0490001234569"]]
      (mkBatch "B1" BatchStatus.SOLD "0490001234569"
        [mkEvent EventType.SALE "0490001234569"]).batchID =
      PosVerifyResponse.duplicate409 :=
  pos_check_sold_always_duplicate _ _ "any-scanner" (by simp) rfl
    (by intro x hx hid; simpa using hx)

/-- C2: a unit built by `createBatch` followed by any sequence of
`updateBatch` appends has a non-empty trace whose first event's
`previousHash` is the well-known zero genesis value, and in which every
later event's `previousHash` equals the stored digest (`txHash`) of its
predecessor. -/
theorem createBatch_chain_integrity (batchData : BatchInput) (actor : User)
    (timestamp : String) (nowMs : Nat) (steps : List (BatchMut × TraceEvent))
    (b : Batch)
    (h : appendEvents (createBatch batchData actor timestamp nowMs) steps = some b) :
    b.trace ≠ [] ∧
    (∀ e, b.trace.head? = some e → e.previousHash = genesisPreviousHash) ∧
    (∀ i e1 e2, b.trace[i]? = some e1 → b.trace[i + 1]? = some e2 →
      e2.previousHash = e1.txHash) := by
  have hinit : linkedFrom genesisPreviousHash
      (createBatch batchData actor timestamp nowMs).trace := ⟨rfl, trivial⟩
  have hne : (createBatch batchData actor timestamp nowMs).trace ≠ [] := by
    simp [createBatch]
  obtain ⟨hne2, hl2⟩ := appendEvents_linked steps _ b h hne hinit
  exact ⟨hne2, fun e he => linkedFrom_head _ _ _ hl2 he,
    linkedFrom_adjacent _ _ hl2⟩

/-- Witness for C2: the hypothesis is satisfied by the freshly created batch
itself (empty append sequence), whose trace is non-empty. -/
theorem createBatch_chain_integrity_witness :
    (createBatch { gtin := "08901234567890", lotNumber := "LOT-1",
                   expiryDate := "2026-01-01", quantity := some 12, unit := none,
                   productName := some "Single Malt", alcoholContent := none,
                   category := none } userMfg "2024-01-01T00:00:00Z" 1000).trace ≠ [] :=
  (createBatch_chain_integrity _ userMfg "2024-01-01T00:00:00Z" 1000 [] _ rfl).1

/-- C4: the visibility filter.  A `REGULATOR` or `AUDITOR` requester gets the
stored list unchanged (both in `getBatches` and in the server's secrecy
filter); any other requester gets exactly the batches they own, made,
are the intended recipient of, or appear in the trace of — an
order-preserving sub-list whose per-batch multiplicity matches the store for
retained batches and is zero for all others. -/
theorem getBatches_visibility (user : User) (ledger : Ledger) :
    ((user.role = UserRole.REGULATOR ∨ user.role = UserRole.AUDITOR) →
      getBatches user ledger = ledger ∧
      serverListBatches ledger user.gln user.role = ledger) ∧
    (user.role ≠ UserRole.REGULATOR → user.role ≠ UserRole.AUDITOR →
      getBatches user ledger = ledger.filter (visibleTo user.gln) ∧
      serverListBatches ledger user.gln user.role = getBatches user ledger ∧
      (getBatches user ledger).Sublist ledger ∧
      (∀ b, b ∈ getBatches user ledger ↔ b ∈ ledger ∧
        (b.currentOwnerGLN = user.gln ∨ b.manufacturerGLN = user.gln ∨
         b.intendedRecipientGLN = some user.gln ∨
         ∃ t ∈ b.trace, t.actorGLN = user.gln)) ∧
      (∀ b, (getBatches user ledger).count b =
        if visibleTo user.gln b = true then ledger.count b else 0)) := by
  constructor
  · intro hrole
    rcases hrole with h | h <;> simp [getBatches, serverListBatches, h]
  · intro h1 h2
    have hcond : (user.role == UserRole.REGULATOR ||
        user.role == UserRole.AUDITOR) = false := by
      simp [h1, h2]
    have hg : getBatches user ledger = ledger.filter (visibleTo user.gln) := by
      simp [getBatches, hcond]
    have hs : serverListBatches ledger user.gln user.role =
        ledger.filter (visibleTo user.gln) := by
      simp [serverListBatches, h1, h2]
    refine ⟨hg, hs.trans hg.symm, ?_, ?_, ?_⟩
    · rw [hg]
      exact List.filter_sublist ledger
    · intro b
      rw [hg, List.mem_filter]
      constructor
      · rintro ⟨hb, hv⟩
        exact ⟨hb, by simpa [visibleTo, List.any_eq_true, or_assoc] using hv⟩
      · rintro ⟨hb, hv⟩
        exact ⟨hb, by simpa [visibleTo, List.any_eq_true, or_assoc] using hv⟩
    · intro b
      rw [hg]
      by_cases hv : visibleTo user.gln b = true
      · rw [if_pos hv]
        exact List.count_filter hv
      · rw [if_neg hv]
        refine List.count_eq_zero.mpr (fun hmem => ?_)
        exact hv (List.mem_filter.mp hmem).2

/-- Witness for C4: a regulator sees the whole concrete store; a retailer
sees the filtered store. -/
theorem getBatches_visibility_witness :
    getBatches userReg
      [mkBatch "B4a" BatchStatus.RECEIVED userRtl.gln
        [mkEvent EventType.RECEIVE userRtl.gln],
       mkBatch "B4b" BatchStatus.CREATED "0490005555555"
        [mkEvent EventType.MANUFACTURE "0490005555555"]] =
      [mkBatch "B4a" BatchStatus.RECEIVED userRtl.gln
        [mkEvent EventType.RECEIVE userRtl.gln],
       mkBatch "B4b" BatchStatus.CREATED "0490005555555"
        [mkEvent EventType.MANUFACTURE "0490005555555"]] ∧
    getBatches userRtl
      [mkBatch "B4a" BatchStatus.RECEIVED userRtl.gln
        [mkEvent EventType.RECEIVE userRtl.gln],
       mkBatch "B4b" BatchStatus.CREATED "0490005555555"
        [mkEvent EventType.MANUFACTURE "0490005555555"]] =
      List.filter (visibleTo userRtl.gln)
        [mkBatch "B4a" BatchStatus.RECEIVED userRtl.gln
          [mkEvent EventType.RECEIVE userRtl.gln],
         mkBatch "B4b" BatchStatus.CREATED "0490005555555"
          [mkEvent EventType.MANUFACTURE "0490005555555"]] :=
  ⟨((getBatches_visibility userReg _).1 (Or.inl rfl)).1,
   ((getBatches_visibility userRtl _).2 (by decide) (by decide)).1⟩

/-- C9: the point-of-sale check reports a missing unit as a blocked result
with message `Not found` (HTTP 404 on the server), a `QUARANTINED` or
`RECALLED` unit as a blocked result with message `Compliance Block`
(HTTP 403), and the two outcomes are distinguishable from each other and
from the `DUPLICATE` outcome in what the caller receives. -/
theorem pos_blocked_outcomes_distinguishable (ledger : Ledger)
    (batchID gln : String) (b : Batch) :
    (getBatchByID ledger batchID = none →
      checkPOSStatus ledger batchID gln = (POSStatus.INVALID, "Not found") ∧
      posVerifyServer ledger batchID = PosVerifyResponse.notFound404) ∧
    (getBatchByID ledger batchID = some b →
      (b.status = BatchStatus.QUARANTINED ∨ b.status = BatchStatus.RECALLED) →
      checkPOSStatus ledger batchID gln = (POSStatus.INVALID, "Compliance Block") ∧
      posVerifyServer ledger batchID = PosVerifyResponse.illegal403 b.status) ∧
    ((POSStatus.INVALID, "Not found") ≠
      ((POSStatus.INVALID, "Compliance Block") : POSStatus × String)) ∧
    (∀ m1 m2 : String,
      (POSStatus.INVALID, m1) ≠ ((POSStatus.DUPLICATE, m2) : POSStatus × String)) ∧
    (∀ st, PosVerifyResponse.notFound404 ≠ PosVerifyResponse.illegal403 st ∧
      PosVerifyResponse.duplicate409 ≠ PosVerifyResponse.illegal403 st) ∧
    PosVerifyResponse.notFound404 ≠ PosVerifyResponse.duplicate409 := by
  refine ⟨?_, ?_, by decide, ?_, ?_, by simp⟩
  · intro hnone
    have hfind : ledger.find? (fun x => x.batchID == batchID) = none := hnone
    constructor
    · simp [checkPOSStatus, getBatchByID, hfind]
    · simp [posVerifyServer, hfind]
  · intro hsome hst
    have hfind : ledger.find? (fun x => x.batchID == batchID) = some b := hsome
    rcases hst with hs | hs <;>
      constructor <;>
        simp [checkPOSStatus, posVerifyServer, getBatchByID, hfind, hs]
  · intro m1 m2
    simp
  · intro st
    constructor <;> simp

/-- Witness for C9 at a concrete store holding one quarantined batch. -/
theorem pos_blocked_outcomes_distinguishable_witness :
    checkPOSStatus [mkBatch "B9" BatchStatus.QUARANTINED "0490001234568"
        [mkEvent EventType.RETURN "0490001234568"]] "missing-id" "scanner" =
      (POSStatus.INVALID, "Not found") ∧
    checkPOSStatus [mkBatch "B9" BatchStatus.QUARANTINED "0490001234568"
        [mkEvent EventType.RETURN "0490001234568"]] "B9" "scanner" =
      (POSStatus.INVALID, "Compliance Block") :=
  ⟨((pos_blocked_outcomes_distinguishable
      [mkBatch "B9" BatchStatus.QUARANTINED "0490001234568"
        [mkEvent EventType.RETURN "0490001234568"]] "missing-id" "scanner"
      (mkBatch "B9" BatchStatus.QUARANTINED "0490001234568"
        [mkEvent EventType.RETURN "0490001234568"])).1 rfl).1,
   ((pos_blocked_outcomes_distinguishable
      [mkBatch "B9" BatchStatus.QUARANTINED "0490001234568"
        [mkEvent EventType.RETURN "0490001234568"]] "B9" "scanner"
      (mkBatch "B9" BatchStatus.QUARANTINED "0490001234568"
        [mkEvent EventType.RETURN "0490001234568"])).2.1 rfl (Or.inl rfl)).1⟩

/-- C10: `verifyByHash` (both variants) scans the store fetched as a
synthetic `REGULATOR` principal — which is the entire store, unrestricted by
the visibility filter, with no caller parameter at all — and any batch it
returns is a stored batch whose `integrityHash` or `blockchainId` equals the
given hash (the second variant matches only `integrityHash`), returned whole,
trace included. -/
theorem verifyByHash_bypasses_visibility (ledger : Ledger) (hash : String) :
    getBatches adminPrincipal ledger = ledger ∧
    verifyByHash ledger hash =
      ledger.find? (fun b => b.integrityHash == some hash || b.blockchainId == hash) ∧
    (∀ b, verifyByHash ledger hash = some b →
      b ∈ ledger ∧ (b.integrityHash = some hash ∨ b.blockchainId = hash)) ∧
    verifyByHash2 ledger hash =
      ledger.find? (fun b => b.integrityHash == some hash) ∧
    (∀ b, verifyByHash2 ledger hash = some b →
      b ∈ ledger ∧ b.integrityHash = some hash) := by
  have hadmin : getBatches adminPrincipal ledger = ledger := by
    simp [getBatches, adminPrincipal]
  have h1 : verifyByHash ledger hash =
      ledger.find? (fun b => b.integrityHash == some hash || b.blockchainId == hash) := by
    simp only [verifyByHash, hadmin]
  have h2 : verifyByHash2 ledger hash =
      ledger.find? (fun b => b.integrityHash == some hash) := by
    simp only [verifyByHash2, hadmin]
  refine ⟨hadmin, h1, ?_, h2, ?_⟩
  · intro b hb
    rw [h1] at hb
    refine ⟨List.mem_of_find?_eq_some hb, ?_⟩
    simpa using List.find?_some hb
  · intro b hb
    rw [h2] at hb
    refine ⟨List.mem_of_find?_eq_some hb, ?_⟩
    simpa using List.find?_some hb

/-- Witness for C10: the hash of the second stored batch retrieves it from
the full store. -/
theorem verifyByHash_bypasses_visibility_witness :
    mkBatch "Bb" BatchStatus.CREATED "0490007777777" [] ∈
      ([mkBatch "Ba" BatchStatus.CREATED "0490006666666" [],
        mkBatch "Bb" BatchStatus.CREATED "0490007777777" []] : Ledger) ∧
    ((mkBatch "Bb" BatchStatus.CREATED "0490007777777" []).integrityHash =
        some "ih-Bb" ∨
     (mkBatch "Bb" BatchStatus.CREATED "0490007777777" []).blockchainId = "ih-Bb") :=
  (verifyByHash_bypasses_visibility
    [mkBatch "Ba" BatchStatus.CREATED "0490006666666" [],
     mkBatch "Bb" BatchStatus.CREATED "0490007777777" []] "ih-Bb").2.2.1 _ rfl

/-- C3 (code-bug exhibit): on a store whose only batch is already `SOLD`, the
point-of-sale check reports `DUPLICATE` and the first-variant `sellBatch`
refuses with that message — but the second-variant `sellBatch` consults no
check at all: it succeeds, appends a second `SALE` event and leaves the
status `SOLD`. -/
theorem sellBatch2_sells_already_sold :
    (checkPOSStatus [mkBatch "B3" BatchStatus.SOLD userRtl.gln
        [mkEvent EventType.SALE userRtl.gln]] "B3" userRtl.gln).1 =
      POSStatus.DUPLICATE ∧
    sellBatch [mkBatch "B3" BatchStatus.SOLD userRtl.gln
        [mkEvent EventType.SALE userRtl.gln]] "B3" userRtl
        "2024-03-03T00:00:00Z" 33 =
      Except.error "Anti-Counterfeit Alert: Already Sold" ∧
    (sellBatch2 [mkBatch "B3" BatchStatus.SOLD userRtl.gln
        [mkEvent EventType.SALE userRtl.gln]] "B3" userRtl none
        "2024-03-03T00:00:00Z" 33 "cafe").map
      (fun r => (r.2.status, r.2.trace.map (fun e => e.type))) =
      Except.ok (BatchStatus.SOLD, [EventType.SALE, EventType.SALE]) :=
  ⟨rfl, rfl, rfl⟩

/-- A concrete second-variant dispatch run over a one-batch store,
parameterized only by the `Math.random()` draw used for the new event's
`txHash`. -/
def dispatchRun2 (r : String) : Ledger :=
  transferBatches2
    [mkBatch "B6" BatchStatus.RECEIVED userDist.gln
      [mkEvent EventType.RECEIVE userDist.gln]]
    ["B6"] userRtl.gln "City Wine Shop" userDist none "2024-02-02T00:00:00Z" 66
    (fun _ => r) (fun _ => 7)

/-- C6 (code-bug exhibit): two second-variant dispatch runs that write an
event with identical content (kind, timestamp, actor, location, metadata,
previousHash) produce different `txHash` values — the hash is the raw
`Math.random()` draw, not a function of the event content. -/
theorem transferBatches2_txHash_not_content_derived :
    ((getBatchByID (dispatchRun2 "aaaa") "B6").bind
        (fun b => b.trace.getLast?)).map eventContent =
      ((getBatchByID (dispatchRun2 "bbbb") "B6").bind
        (fun b => b.trace.getLast?)).map eventContent ∧
    ((getBatchByID (dispatchRun2 "aaaa") "B6").bind
        (fun b => b.trace.getLast?)).map (fun e => e.txHash) ≠
      ((getBatchByID (dispatchRun2 "bbbb") "B6").bind
        (fun b => b.trace.getLast?)).map (fun e => e.txHash) :=
  ⟨rfl, by decide⟩

/-- C5 counterexample: a `RECALLED` unit does admit an outbound transition —
`returnBatch` moves it to `IN_TRANSIT` and appends a `RETURN` event, so the
claimed terminality of `RECALLED` is false on the code. -/
theorem recalled_unit_accepts_return :
    (getBatchByID [mkBatch "B5c" BatchStatus.RECALLED userDist.gln
        [mkEvent EventType.RECALL userReg.gln]] "B5c").map (fun x => x.status) =
      some BatchStatus.RECALLED ∧
    (returnBatch [mkBatch "B5c" BatchStatus.RECALLED userDist.gln
        [mkEvent EventType.RECALL userReg.gln]] "B5c" userMfg.gln
        ReturnReason.RECALLED userDist none "2024-04-04T00:00:00Z" 56).map
      (fun l2 => (getBatchByID l2 "B5c").map
        (fun x => (x.status, x.trace.length))) =
      Except.ok (some (BatchStatus.IN_TRANSIT, 2)) :=
  ⟨rfl, rfl⟩

/-- C5 amended: `recallBatch` applies the `RECALL` transition from any
status (in particular `SOLD`), and the first-variant `sellBatch` refuses
`SOLD` and `RECALLED` units through the POS pre-check; but terminal states
are otherwise unenforced: `returnBatch` and `receiveBatch` apply their
transitions to a unit of any status, `transferBatches` does so whenever the
caller owns the unit, and `sellBatch` does not block a `DESTROYED` unit. -/
theorem terminal_statuses_not_enforced (ledger : Ledger) (b : Batch)
    (le : TraceEvent) (actor : User) (reason : String) (rr : ReturnReason)
    (toGLN toName timestamp : String) (nowMs : Nat)
    (hfind : getBatchByID ledger b.batchID = some b)
    (hle : b.trace.getLast? = some le) :
    (recallBatch ledger b.batchID reason actor timestamp nowMs).map
        (fun l2 => (getBatchByID l2 b.batchID).map
          (fun x => (x.status, x.trace.length))) =
      Except.ok (some (BatchStatus.RECALLED, b.trace.length + 1)) ∧
    (b.status = BatchStatus.SOLD →
      sellBatch ledger b.batchID actor timestamp nowMs =
        Except.error "Anti-Counterfeit Alert: Already Sold") ∧
    (b.status = BatchStatus.RECALLED →
      sellBatch ledger b.batchID actor timestamp nowMs =
        Except.error "Compliance Block") ∧
    (returnBatch ledger b.batchID toGLN rr actor none timestamp nowMs).map
        (fun l2 => (getBatchByID l2 b.batchID).map
          (fun x => (x.status, x.intendedRecipientGLN, x.trace.length))) =
      Except.ok (some (BatchStatus.IN_TRANSIT, some toGLN, b.trace.length + 1)) ∧
    (receiveBatch ledger b.batchID actor timestamp nowMs).map
        (fun r => (r.2.status, r.2.trace.length)) =
      Except.ok (BatchStatus.RECEIVED, b.trace.length + 1) ∧
    (b.currentOwnerGLN = actor.gln →
      (transferBatches ledger [b.batchID] toGLN toName actor none timestamp
          nowMs).map
        (fun l2 => (getBatchByID l2 b.batchID).map
          (fun x => (x.status, x.trace.length))) =
      Except.ok (some (BatchStatus.IN_TRANSIT, b.trace.length + 1))) ∧
    (b.status = BatchStatus.DESTROYED →
      (sellBatch ledger b.batchID actor timestamp nowMs).map
        (fun r => r.2.status) = Except.ok BatchStatus.SOLD) := by
  have hfind2 : ledger.find? (fun x => x.batchID == b.batchID) = some b := hfind
  refine ⟨?_, ?_, ?_, ?_, ?_, ?_, ?_⟩
  · obtain ⟨u, hupd, huid, hust, hulen⟩ :
        ∃ u, updateBatch ledger { b with status := BatchStatus.RECALLED }
            (recallDraft reason actor timestamp nowMs) =
            some (saveUpdatedBatch ledger u, u) ∧
          u.batchID = b.batchID ∧ u.status = BatchStatus.RECALLED ∧
          u.trace.length = b.trace.length + 1 :=
      ⟨_, updateBatch_spec ledger _ _ le hle, rfl, rfl, by simp⟩
    have hlook := find?_saveUpdatedBatch ledger b.batchID b u hfind2 huid
    simp only [recallBatch, hfind, hupd, Except.map]
    simp only [getBatchByID]
    rw [hlook]
    simp [hust, hulen]
  · intro hs
    have hcheck : checkPOSStatus ledger b.batchID actor.gln =
        (POSStatus.DUPLICATE, "Anti-Counterfeit Alert: Already Sold") := by
      simp [checkPOSStatus, getBatchByID, hfind2, hs]
    simp [sellBatch, hcheck]
  · intro hs
    have hcheck : checkPOSStatus ledger b.batchID actor.gln =
        (POSStatus.INVALID, "Compliance Block") := by
      simp [checkPOSStatus, getBatchByID, hfind2, hs]
    simp [sellBatch, hcheck]
  · obtain ⟨u, hupd, huid, hust, hurec, hulen⟩ :
        ∃ u, updateBatch ledger
            { b with
              status := BatchStatus.IN_TRANSIT,
              intendedRecipientGLN := some toGLN }
            (returnDraft rr none actor timestamp nowMs) =
            some (saveUpdatedBatch ledger u, u) ∧
          u.batchID = b.batchID ∧ u.status = BatchStatus.IN_TRANSIT ∧
          u.intendedRecipientGLN = some toGLN ∧
          u.trace.length = b.trace.length + 1 :=
      ⟨_, updateBatch_spec ledger _ _ le hle, rfl, rfl, rfl, by simp⟩
    have hlook := find?_saveUpdatedBatch ledger b.batchID b u hfind2 huid
    simp only [returnBatch, hfind, hupd, Except.map]
    simp only [getBatchByID]
    rw [hlook]
    simp [hust, hurec, hulen]
  · obtain ⟨u, hupd, hust, hulen⟩ :
        ∃ u, updateBatch ledger
            { b with
              currentOwnerGLN := actor.gln,
              intendedRecipientGLN := none,
              status := BatchStatus.RECEIVED }
            (receiveDraft actor b.currentOwnerGLN timestamp nowMs) =
            some (saveUpdatedBatch ledger u, u) ∧
          u.status = BatchStatus.RECEIVED ∧
          u.trace.length = b.trace.length + 1 :=
      ⟨_, updateBatch_spec ledger _ _ le hle, rfl, by simp⟩
    simp only [receiveBatch, hfind, hupd, Except.map]
    simp [hust, hulen]
  · intro howner
    have hvis : visibleTo actor.gln b = true := by
      simp [visibleTo, howner]
    have hfg := find?_getBatches actor ledger b hfind2 hvis
    obtain ⟨u, hupd, huid, hust, hulen⟩ :
        ∃ u, updateBatch ledger
            { b with
              status := BatchStatus.IN_TRANSIT,
              intendedRecipientGLN := some toGLN }
            (dispatchDraft actor toGLN toName none timestamp nowMs) =
            some (saveUpdatedBatch ledger u, u) ∧
          u.batchID = b.batchID ∧ u.status = BatchStatus.IN_TRANSIT ∧
          u.trace.length = b.trace.length + 1 :=
      ⟨_, updateBatch_spec ledger _ _ le hle, rfl, rfl, by simp⟩
    have hlook := find?_saveUpdatedBatch ledger b.batchID b u hfind2 huid
    have hguard : (b.currentOwnerGLN != actor.gln) = false := by
      simp [howner]
    simp only [transferBatches, transferLoop, hfg, hguard, hupd, Except.map,
      Bool.false_eq_true, if_false]
    simp only [getBatchByID]
    rw [hlook]
    simp [hust, hulen]
  · intro hd
    have hcheck : checkPOSStatus ledger b.batchID actor.gln =
        (POSStatus.VALID, "Verified") := by
      simp [checkPOSStatus, getBatchByID, hfind2, hd]
    obtain ⟨u, hupd, hust⟩ :
        ∃ u, updateBatch ledger { b with status := BatchStatus.SOLD }
            (saleDraft actor timestamp nowMs) =
            some (saveUpdatedBatch ledger u, u) ∧
          u.status = BatchStatus.SOLD :=
      ⟨_, updateBatch_spec ledger _ _ le hle, rfl⟩
    simp only [sellBatch, hcheck, hfind, hupd, Except.map]
    simp [hust]

/-- Witness for C5 (amended): the first-variant `sellBatch` refuses a
concrete already-sold batch. -/
theorem terminal_statuses_not_enforced_witness :
    sellBatch [mkBatch "B5" BatchStatus.SOLD userRtl.gln
        [mkEvent EventType.SALE userRtl.gln]] "B5" userRtl
        "2024-04-04T00:00:00Z" 55 =
      Except.error "Anti-Counterfeit Alert: Already Sold" :=
  ((terminal_statuses_not_enforced
      [mkBatch "B5" BatchStatus.SOLD userRtl.gln
        [mkEvent EventType.SALE userRtl.gln]]
      (mkBatch "B5" BatchStatus.SOLD userRtl.gln
        [mkEvent EventType.SALE userRtl.gln])
      (mkEvent EventType.SALE userRtl.gln) userRtl "safety"
      ReturnReason.DAMAGED "0490001234567" "Royal Spirits Distillery"
      "2024-04-04T00:00:00Z" 55 rfl rfl).2.1) rfl

/-- C7 counterexample: the first-variant `returnBatch` performs no ownership
check at all — a caller who is not `currentOwnerGLN` successfully applies the
`RETURN` transition, changing status, recipient and trace, instead of
failing with a not-owner error and leaving the unit unchanged. -/
theorem return_without_ownership_check :
    (mkBatch "B7" BatchStatus.RECEIVED userDist.gln
      [mkEvent EventType.RECEIVE userDist.gln]).currentOwnerGLN ≠ userRtl.gln ∧
    (returnBatch [mkBatch "B7" BatchStatus.RECEIVED userDist.gln
        [mkEvent EventType.RECEIVE userDist.gln]] "B7" "0490001234567"
        ReturnReason.UNSOLD userRtl none "2024-05-05T00:00:00Z" 77).map
      (fun l2 => (getBatchByID l2 "B7").map
        (fun x => (x.status, x.intendedRecipientGLN, x.trace.length))) =
      Except.ok (some (BatchStatus.IN_TRANSIT, some "0490001234567", 2)) :=
  ⟨by decide, rfl⟩

/-- C7 amended: a non-owner DISPATCH through `transferBatches` (either
variant) leaves the store unchanged but raises no error — the unit is
silently skipped and the call reports success; a non-owner RETURN through the
second-variant `returnBatch` fails with `Not owner` and the unit unchanged;
the first-variant `returnBatch` has no ownership check and applies the
RETURN transition for any caller. -/
theorem ownership_guard_behavior (ledger : Ledger) (b : Batch) (le : TraceEvent)
    (actor : User) (toGLN toName timestamp : String) (rr : ReturnReason)
    (nowMs : Nat) (randTx : Nat → String) (randEvt : Nat → Nat) (rtx : String)
    (hfind : getBatchByID ledger b.batchID = some b)
    (huniq : ∀ x ∈ ledger, x.batchID = b.batchID → x = b)
    (hnotowner : b.currentOwnerGLN ≠ actor.gln) :
    transferBatches ledger [b.batchID] toGLN toName actor none timestamp nowMs =
      Except.ok ledger ∧
    transferBatches2 ledger [b.batchID] toGLN toName actor none timestamp nowMs
      randTx randEvt = ledger ∧
    returnBatch2 ledger b.batchID toGLN rr actor none timestamp nowMs rtx =
      Except.error "Not owner" ∧
    (b.trace.getLast? = some le →
      (returnBatch ledger b.batchID toGLN rr actor none timestamp nowMs).map
          (fun l2 => (getBatchByID l2 b.batchID).map
            (fun x => (x.status, x.intendedRecipientGLN, x.trace.length))) =
        Except.ok (some (BatchStatus.IN_TRANSIT, some toGLN,
          b.trace.length + 1))) := by
  have hfind2 : ledger.find? (fun x => x.batchID == b.batchID) = some b := hfind
  have hguard : (b.currentOwnerGLN != actor.gln) = true := by
    simp [hnotowner]
  refine ⟨?_, ?_, ?_, ?_⟩
  · cases hfg : (getBatches actor ledger).find? (fun x => x.batchID == b.batchID) with
    | none => simp only [transferBatches, transferLoop, hfg]
    | some b2 =>
        have hb2 : b2 = b :=
          huniq b2 (mem_of_mem_getBatches _ _ _ (List.mem_of_find?_eq_some hfg))
            (by simpa using List.find?_some hfg)
        subst hb2
        simp only [transferBatches, transferLoop, hfg, hguard, if_true]
  · cases hfg : (getBatches actor ledger).find? (fun x => x.batchID == b.batchID) with
    | none => simp only [transferBatches2, transferLoop2, hfg]
    | some b2 =>
        have hb2 : b2 = b :=
          huniq b2 (mem_of_mem_getBatches _ _ _ (List.mem_of_find?_eq_some hfg))
            (by simpa using List.find?_some hfg)
        subst hb2
        simp only [transferBatches2, transferLoop2, hfg, hguard, if_true]
  · simp only [returnBatch2, hfind, hguard, if_true]
  · intro hle
    obtain ⟨u, hupd, huid, hust, hurec, hulen⟩ :
        ∃ u, updateBatch ledger
            { b with
              status := BatchStatus.IN_TRANSIT,
              intendedRecipientGLN := some toGLN }
            (returnDraft rr none actor timestamp nowMs) =
            some (saveUpdatedBatch ledger u, u) ∧
          u.batchID = b.batchID ∧ u.status = BatchStatus.IN_TRANSIT ∧
          u.intendedRecipientGLN = some toGLN ∧
          u.trace.length = b.trace.length + 1 :=
      ⟨_, updateBatch_spec ledger _ _ le hle, rfl, rfl, rfl, by simp⟩
    have hlook := find?_saveUpdatedBatch ledger b.batchID b u hfind2 huid
    simp only [returnBatch, hfind, hupd, Except.map]
    simp only [getBatchByID]
    rw [hlook]
    simp [hust, hurec, hulen]

/-- Witness for C7 (amended): a concrete non-owner RETURN through the
second-variant `returnBatch` fails with `Not owner`. -/
theorem ownership_guard_behavior_witness :
    returnBatch2 [mkBatch "B7w" BatchStatus.RECEIVED userDist.gln
        [mkEvent EventType.RECEIVE userDist.gln]] "B7w" "0490001234567"
        ReturnReason.UNSOLD userRtl none "2024-05-05T00:00:00Z" 70 "feed" =
      Except.error "Not owner" :=
  (ownership_guard_behavior
    [mkBatch "B7w" BatchStatus.RECEIVED userDist.gln
      [mkEvent EventType.RECEIVE userDist.gln]]
    (mkBatch "B7w" BatchStatus.RECEIVED userDist.gln
      [mkEvent EventType.RECEIVE userDist.gln])
    (mkEvent EventType.RECEIVE userDist.gln) userRtl "0490001234567"
    "Royal Spirits Distillery" "2024-05-05T00:00:00Z" ReturnReason.UNSOLD 70
    (fun _ => "r0") (fun _ => 1) "feed" rfl
    (by intro x hx h; simpa using hx) (by decide)).2.2.1

/-- C8 counterexample: the first-variant `receiveBatch` closes a `RETURN`
event with status `RECEIVED`, not `QUARANTINED`, so the claimed equivalence
fails on that write path. -/
theorem receive_ignores_return_closure :
    ((mkBatch "B8" BatchStatus.IN_TRANSIT userDist.gln
        [mkEvent EventType.RETURN userDist.gln]).trace.getLast?).map
      (fun e => e.type) = some EventType.RETURN ∧
    (receiveBatch [mkBatch "B8" BatchStatus.IN_TRANSIT userDist.gln
        [mkEvent EventType.RETURN userDist.gln]] "B8" userMfg
        "2024-06-06T00:00:00Z" 88).map (fun r => r.2.status) =
      Except.ok BatchStatus.RECEIVED ∧
    BatchStatus.RECEIVED ≠ BatchStatus.QUARANTINED :=
  ⟨rfl, rfl, by decide⟩

/-- C8 amended: the second-variant `receiveBatch` sets `QUARANTINED` iff the
event being closed is a `RETURN` (appending a `RETURN_RECEIPT`, otherwise a
`SHIPMENT_RECEIPT` with `RECEIVED`); the first-variant `receiveBatch` always
sets `RECEIVED` and appends a `RECEIVE` event, regardless of the closed
event. -/
theorem receive_quarantine_only_in_second_variant (ledger : Ledger) (b : Batch)
    (le : TraceEvent) (actor : User) (timestamp : String) (nowMs : Nat)
    (rtx : String)
    (hfind : getBatchByID ledger b.batchID = some b)
    (hle : b.trace.getLast? = some le)
    (hrecip : b.intendedRecipientGLN = none ∨
      b.intendedRecipientGLN = some actor.gln) :
    (receiveBatch2 ledger b.batchID actor timestamp nowMs rtx).map
        (fun r => (r.2.status, r.2.trace.getLast?.map (fun e => e.type))) =
      Except.ok
        (if le.type == EventType.RETURN then BatchStatus.QUARANTINED
         else BatchStatus.RECEIVED,
         some (if le.type == EventType.RETURN then EventType.RETURN_RECEIPT
               else EventType.SHIPMENT_RECEIPT)) ∧
    (receiveBatch ledger b.batchID actor timestamp nowMs).map
        (fun r => (r.2.status, r.2.trace.getLast?.map (fun e => e.type))) =
      Except.ok (BatchStatus.RECEIVED, some EventType.RECEIVE) := by
  have hguard : ((b.intendedRecipientGLN.map (fun r => r != actor.gln)).getD
      false) = false := by
    rcases hrecip with h | h <;> simp [h]
  constructor
  · simp only [receiveBatch2, hfind, hguard, hle, Except.map]
    simp [List.getLast?_concat]
  · obtain ⟨u, hupd, hust, hulast⟩ :
        ∃ u, updateBatch ledger
            { b with
              currentOwnerGLN := actor.gln,
              intendedRecipientGLN := none,
              status := BatchStatus.RECEIVED }
            (receiveDraft actor b.currentOwnerGLN timestamp nowMs) =
            some (saveUpdatedBatch ledger u, u) ∧
          u.status = BatchStatus.RECEIVED ∧
          u.trace.getLast?.map (fun e => e.type) = some EventType.RECEIVE :=
      ⟨_, updateBatch_spec ledger _ _ le hle, rfl,
        by simp [List.getLast?_concat, chainEvent, receiveDraft]⟩
    simp only [receiveBatch, hfind, hupd, Except.map]
    simp [hust, hulast]

/-- Witness for C8 (amended): a concrete return receipt is quarantined by the
second-variant `receiveBatch`. -/
theorem receive_quarantine_only_in_second_variant_witness :
    (receiveBatch2 [mkBatch "B8w" BatchStatus.IN_TRANSIT userDist.gln
        [mkEvent EventType.RETURN userDist.gln]] "B8w" userMfg
        "2024-06-06T00:00:00Z" 80 "c0ffee").map
      (fun r => (r.2.status, r.2.trace.getLast?.map (fun e => e.type))) =
      Except.ok (BatchStatus.QUARANTINED, some EventType.RETURN_RECEIPT) := by
  have h := (receive_quarantine_only_in_second_variant
    [mkBatch "B8w" BatchStatus.IN_TRANSIT userDist.gln
      [mkEvent EventType.RETURN userDist.gln]]
    (mkBatch "B8w" BatchStatus.IN_TRANSIT userDist.gln
      [mkEvent EventType.RETURN userDist.gln])
    (mkEvent EventType.RETURN userDist.gln) userMfg "2024-06-06T00:00:00Z" 80
    "c0ffee" rfl rfl (Or.inl rfl)).1
  simpa using h

end ELedger
